import Mathlib

/-!
Verification of the ELK Audio BCM2835 I2S EVL driver (`bcm2835-i2s-elk.c`)
against its natural-language specification.

The driver's register-level and DMA-engine operations are shallowly embedded
below.  Machine integers are `Nat` with explicit `% 2^32` where 32-bit
wrap-around matters; hardware reads that the device can influence (the SYNC
status flag, the RX FIFO sample stream, DMA engine return codes) are threaded
as explicit oracle parameters; stateful driver entry points become pure
functions from the oracle and initial state to the final state together with
the trace of externally visible DMA-engine events.
-/

/-! ## Register-bit constants

Modelled from the spec: §6 requires a bit-exact control/status register layout
with "documented bit-field masks for enable bits, FIFO-clear bits, sync flag";
the numeric values come from the BCM2835 PCM/I2S register layout that the
missing `bcm2835-i2s-elk.h` header encodes (the mainline layout this driver is
derived from).  The claims below depend only on the masks being the distinct
single bits of that layout. -/

def BCM2835_I2S_EN : Nat := 2 ^ 0
def BCM2835_I2S_RXON : Nat := 2 ^ 1
def BCM2835_I2S_TXON : Nat := 2 ^ 2
def BCM2835_I2S_TXCLR : Nat := 2 ^ 3
def BCM2835_I2S_RXCLR : Nat := 2 ^ 4
def BCM2835_I2S_RXD : Nat := 2 ^ 20
def BCM2835_I2S_SYNC : Nat := 2 ^ 24
def BCM2835_I2S_STBY : Nat := 2 ^ 25

/-- Mode-register bit fields (same modelling note as above). -/
def BCM2835_I2S_CLKDIS : Nat := 2 ^ 28
def BCM2835_I2S_CLKM : Nat := 2 ^ 23
def BCM2835_I2S_CLKI : Nat := 2 ^ 22
def BCM2835_I2S_FSM : Nat := 2 ^ 21
def BCM2835_I2S_FSI : Nat := 2 ^ 20

def BCM2835_I2S_FLEN (v : Nat) : Nat := v <<< 10
def BCM2835_I2S_FSLEN (v : Nat) : Nat := v

/-- Channel-format register fields (same modelling note as above). -/
def BCM2835_I2S_CHWEX : Nat := 2 ^ 15
def BCM2835_I2S_CHEN : Nat := 2 ^ 14
def BCM2835_I2S_CHPOS (v : Nat) : Nat := v <<< 4
def BCM2835_I2S_CHWID (v : Nat) : Nat := v
def BCM2835_I2S_CH1 (v : Nat) : Nat := v <<< 16
def BCM2835_I2S_CH2 (v : Nat) : Nat := v
def BCM2835_I2S_CH1_POS (v : Nat) : Nat := BCM2835_I2S_CH1 (BCM2835_I2S_CHPOS v)
def BCM2835_I2S_CH2_POS (v : Nat) : Nat := BCM2835_I2S_CH2 (BCM2835_I2S_CHPOS v)

/-- `#define BCM2835_PCM_WORD_LEN 32` (source line 27). -/
def BCM2835_PCM_WORD_LEN : Nat := 32

/-- `#define BCM2835_PCM_SLOTS 2` (source line 28). -/
def BCM2835_PCM_SLOTS : Nat := 2

/-- Linux errno values used by the driver's error returns. -/
def EIO_VAL : Int := 5
def EBUSY_VAL : Int := 16
def EINVAL_VAL : Int := 22

/-- 32-bit truncation, for `uint32_t` arithmetic. -/
def m32 (x : Nat) : Nat := x % 2 ^ 32

/-- 32-bit bitwise complement (C `~` on `uint32_t`). -/
def compl32 (x : Nat) : Nat := (2 ^ 32 - 1) ^^^ (x % 2 ^ 32)

/-- Modelled from the spec: §4.1 `update_bits(register, mask, value)` is a
read-modify-write restricted to `mask` (the `rpi_reg_update_bits` helper is
declared in the missing `rpi-audio-evl.h`); given the value `readv` returned
by the read, the written-back word is `(readv & ~mask) | (value & mask)`. -/
def updateBits (readv mask val : Nat) : Nat :=
  (readv &&& compl32 mask) ||| (val &&& mask)

/-- A read of the CS (control/status) register.  The driver stores `reg`, but
the SYNC flag is hardware-owned and toggles asynchronously (spec §4.6), so a
read returns the stored word with the SYNC bit replaced by the oracle bit
`b`. -/
def readCS (reg : Nat) (b : Bool) : Nat :=
  (m32 reg &&& compl32 BCM2835_I2S_SYNC) |||
    (if b then BCM2835_I2S_SYNC else 0)

/-! ## Buffer geometry (`bcm2835_i2s_buffers_setup`, source lines 475-492)

The geometry block of `bcm2835_i2s_buffers_setup` computes the period length,
double-buffer length and the playback (TX) base addresses from the capture
(RX) base addresses.  Addresses are modelled as byte offsets in `Nat`. -/

structure BufferGeom where
  period_len : Nat
  buffer_len : Nat
  tx_buf : Nat
  tx_phys_addr : Nat
  cv_gate_out : Nat
  cv_gate_in : Nat
  deriving Repr, DecidableEq

/-- Geometry computation of `bcm2835_i2s_buffers_setup`:
`period_len = audio_buffer_size * audio_channels * sizeof(uint32_t)`,
`buffer_len = 2 * period_len`, `tx_buf = rx_buf + buffer_len`,
`tx_phys_addr = rx_phys_addr + buffer_len`, with the CV-gate scratch words
after both halves. -/
def bcm2835_i2s_buffers_geom (audio_buffer_size audio_channels : Nat)
    (rx_buf rx_phys_addr : Nat) : BufferGeom :=
  let period_len := audio_buffer_size * audio_channels * 4
  let buffer_len := 2 * period_len
  { period_len := period_len
    buffer_len := buffer_len
    tx_buf := rx_buf + buffer_len
    tx_phys_addr := rx_phys_addr + buffer_len
    cv_gate_out := rx_buf + buffer_len * 2
    cv_gate_in := rx_buf + buffer_len * 2 + 4 }

/-! ## DMA completion callback (`bcm2835_i2s_dma_callback`, lines 133-172)

The callback increments the interrupt counter and flips the active buffer
index via `audio_dev->buffer_idx = ~(audio_dev->buffer_idx) & 0x1;`.
The DMA status queries and the CV-gate GPIO relay do not touch either
field. -/

def bcm2835_i2s_dma_callback (kinterrupts buffer_idx : Nat) : Nat × Nat :=
  (kinterrupts + 1, compl32 buffer_idx &&& 1)

/-! ## DMA-engine event traces

`bcm2835_i2s_dma_prepare`, `bcm2835_i2s_submit_dma` and `bcm2835_i2s_exit`
are sequences of calls into the Linux DMA engine whose outcomes the driver
branches on.  Each is embedded as a function from the engine's responses
(oracle booleans / return codes) to the list of engine calls actually made,
in order, together with the driver's return value. -/

inductive DmaEv where
  | prepTx
  | prepRx
  | termTx
  | termRx
  | syncTx
  | syncRx
  | submitRx
  | submitTx
  | issueRx
  | issueTx
  deriving Repr, DecidableEq

/-- `bcm2835_i2s_dma_prepare` (lines 226-249): first requests the TX (playback,
`DMA_MEM_TO_DEV`) cyclic descriptor; on failure returns `-EBUSY` at once.
Then requests the RX (capture, `DMA_DEV_TO_MEM`) descriptor; on failure it
calls `dmaengine_terminate_async(audio_dev->dma_tx)` before returning
`-EBUSY`.  `txOk`/`rxOk` say whether `bcm2835_i2s_dma_prepare_cyclic`
returned a non-NULL descriptor for the respective direction. -/
def bcm2835_i2s_dma_prepare (txOk rxOk : Bool) : List DmaEv × Int :=
  if !txOk then
    ([DmaEv.prepTx], -EBUSY_VAL)
  else if !rxOk then
    ([DmaEv.prepTx, DmaEv.prepRx, DmaEv.termTx], -EBUSY_VAL)
  else
    ([DmaEv.prepTx, DmaEv.prepRx], 0)

/-- `bcm2835_i2s_submit_dma` (lines 251-272): submits the RX descriptor, then
the TX descriptor, then calls `dma_async_issue_pending` on RX, then on TX;
a submit error (per `dma_submit_error`) aborts with `-EIO` before any later
step. -/
def bcm2835_i2s_submit_dma (rxSubmitErr txSubmitErr : Bool) : List DmaEv × Int :=
  if rxSubmitErr then
    ([DmaEv.submitRx], -EIO_VAL)
  else if txSubmitErr then
    ([DmaEv.submitRx, DmaEv.submitTx], -EIO_VAL)
  else
    ([DmaEv.submitRx, DmaEv.submitTx, DmaEv.issueRx, DmaEv.issueTx], 0)

/-- `bcm2835_i2s_exit` (lines 525-548): requests asynchronous termination of
TX; if that returns a negative code the function returns it immediately.
Otherwise it synchronizes TX, terminates RX (returning its negative code on
failure), and synchronizes RX.  `txRet`/`rxRet` are the values returned by
`dmaengine_terminate_async` for the respective channel. -/
def bcm2835_i2s_exit (txRet rxRet : Int) : List DmaEv × Int :=
  if txRet < 0 then
    ([DmaEv.termTx], txRet)
  else if rxRet < 0 then
    ([DmaEv.termTx, DmaEv.syncTx, DmaEv.termRx], rxRet)
  else
    ([DmaEv.termTx, DmaEv.syncTx, DmaEv.termRx, DmaEv.syncRx], 0)

/-! ## FIFO clearing (`bcm2835_i2s_clear_fifos`, source lines 37-84) -/

/-- The sync-flag poll of `bcm2835_i2s_clear_fifos` (lines 72-78):

```c
int timeout = 1000;
...
while (--timeout) {
        rpi_reg_read(..., BCM2835_I2S_CS_A_REG, &csreg);
        if ((csreg & BCM2835_I2S_SYNC) != sync)
                break;
}
```

`hw i` is the CS word returned by the `i`-th poll read, `syncv` the recorded
initial SYNC field, `count` the number of loop bodies already executed and
`fuel` the remaining budget of the pre-decremented `timeout` counter
(`timeout = 1000` allows 999 body executions before `--timeout` hits 0).
The result is the total number of poll reads performed. -/
def pollLoop (syncv : Nat) (hw : Nat → Nat) : Nat → Nat → Nat
  | 0, count => count
  | fuel + 1, count =>
    if (hw count &&& BCM2835_I2S_SYNC) ≠ syncv then count + 1
    else pollLoop syncv hw fuel (count + 1)

/-- `bcm2835_i2s_clear_fifos(audio_dev, tx, rx)` (lines 37-84) acting on the
CS register word `reg0`; `so k` is the hardware SYNC bit visible at the
`k`-th CS read of this call (reads 0-4 are the backup read, the two
update-bits reads, the sync snapshot read and the sync-toggle update read;
reads `5+i` are the poll reads).  Returns the final register word and the
number of poll iterations. -/
def bcm2835_i2s_clear_fifos (reg0 : Nat) (tx rx : Bool) (so : Nat → Bool) :
    Nat × Nat :=
  let off := (if tx then BCM2835_I2S_TXON else 0) |||
    (if rx then BCM2835_I2S_RXON else 0)
  let clr := (if tx then BCM2835_I2S_TXCLR else 0) |||
    (if rx then BCM2835_I2S_RXCLR else 0)
  -- Backup the current state
  let csreg := readCS reg0 (so 0)
  let i2s_active_state := csreg &&& (BCM2835_I2S_RXON ||| BCM2835_I2S_TXON)
  -- Stop I2S module
  let reg1 := updateBits (readCS reg0 (so 1)) off 0
  -- Clear the FIFOs
  let reg2 := updateBits (readCS reg1 (so 2)) clr clr
  let sync := readCS reg2 (so 3) &&& BCM2835_I2S_SYNC
  let reg3 := updateBits (readCS reg2 (so 4)) BCM2835_I2S_SYNC (compl32 sync)
  -- Wait for the SYNC flag changing its state
  let polls := pollLoop sync (fun i => readCS reg3 (so (5 + i))) 999 0
  -- Restore I2S state
  let reg4 := updateBits (readCS reg3 (so (5 + polls)))
    (BCM2835_I2S_RXON ||| BCM2835_I2S_TXON) i2s_active_state
  (reg4, polls)

/-! ## FIFO synchronization (`bcm2835_i2s_synch_frame`, source lines 86-111)

The discard loop pops RX FIFO samples (pushing a zero TX sample each time to
keep the frame clock running) until the two most recently popped samples are
both zero.  Iterations in which the RXD flag is clear change no state, so the
loop is embedded over the stream `s` of popped samples: `s k` is the value
the `k`-th FIFO pop returns, counted from 1 (`s 0` is never popped).  Each
productive iteration records the popped value in `tmp[discarded]` and
increments `discarded`; `fuel` bounds the number of productive iterations so
the (heuristically terminating) C loop becomes a total function: a `none`
result means the loop is still running after `fuel` pops. -/

def synchLoop (s : Nat → Int) :
    Nat → Int → Int → Nat → List (Nat × Int) → Option (Nat × List (Nat × Int))
  | 0, samples0, samples1, discarded, writes =>
    if samples0 = 0 ∧ samples1 = 0 then some (discarded, writes) else none
  | fuel + 1, samples0, samples1, discarded, writes =>
    if samples0 = 0 ∧ samples1 = 0 then some (discarded, writes)
    else
      synchLoop s fuel (s (discarded + 1)) samples0 (discarded + 1)
        (writes ++ [(discarded, s (discarded + 1))])

/-- `bcm2835_i2s_synch_frame` with the initial state of lines 89-90:
`samples = { 0xff, 0xff }`, `discarded = 0`, no `tmp` writes yet.  Returns
the reported discard count and the list of `(index, value)` writes into the
local array `tmp`. -/
def bcm2835_i2s_synch_frame (s : Nat → Int) (fuel : Nat) :
    Option (Nat × List (Nat × Int)) :=
  synchLoop s fuel 0xff 0xff 0 []

/-- `int32_t tmp[9]` (source line 90): the recording array has 9 elements. -/
def synchTmpLen : Nat := 9

/-! ## Hardware-profile configuration (`bcm2835_i2s_configure`, lines 340-419)

The parameter-derivation part of `bcm2835_i2s_configure`: word/slot geometry,
the per-hat branch deciding clock/frame-sync mastership and channel slot
positions, and the mode/format words it assembles.  The subsequent register
stores (MODE, RXC, TXC, CS, DREQ) are straight-line writes of these words
with no further control flow.  `HIFI_BERRY_SAMPLING_RATE` is modelled from
the spec (§4.2: clock rate = frame_length × target sample rate; the constant
lives in the missing `hifi-berry-config.h`). -/

def HIFI_BERRY_SAMPLING_RATE : Nat := 48000

structure ConfigParams where
  bit_clock_master : Bool
  frame_sync_master : Bool
  ch1_pos : Nat
  ch2_pos : Nat
  mode : Nat
  format : Nat
  bclk_rate : Nat
  deriving Repr, DecidableEq

def bcm2835_i2s_configure (audio_hat : String) : ConfigParams :=
  let data_length := BCM2835_PCM_WORD_LEN
  let slots := BCM2835_PCM_SLOTS
  let slot_width := BCM2835_PCM_WORD_LEN
  let frame_length := slots * slot_width
  let format0 := BCM2835_I2S_CHEN ||| BCM2835_I2S_CHWEX |||
    BCM2835_I2S_CHWID ((data_length - 8) &&& 0xf)
  let framesync_length := frame_length / 2
  let (bit_clock_master, frame_sync_master, mode0, ch1_pos, ch2_pos, bclk) :=
    if audio_hat = "hifi-berry" then
      (true, true, BCM2835_I2S_CLKI, 1, 33,
        frame_length * HIFI_BERRY_SAMPLING_RATE)
    else if audio_hat = "hifi-berry-pro" then
      (false, false, 0, 1, 33, 0)
    else
      (false, false, 0, 0, 32, 0)
  -- CH2 format is the same as for CH1
  let format := BCM2835_I2S_CH1 format0 ||| BCM2835_I2S_CH2 format0
  let mode1 := mode0 ||| BCM2835_I2S_FLEN (frame_length - 1) |||
    BCM2835_I2S_FSLEN framesync_length
  let mode2 :=
    if !bit_clock_master then
      mode1 ||| BCM2835_I2S_CLKDIS ||| BCM2835_I2S_CLKM ||| BCM2835_I2S_CLKI
    else mode1
  let mode3 := if !frame_sync_master then mode2 ||| BCM2835_I2S_FSM else mode2
  -- Invert frame sync to have channel 0 (left) with low FS signal
  let mode := mode3 ||| BCM2835_I2S_FSI
  { bit_clock_master := bit_clock_master
    frame_sync_master := frame_sync_master
    ch1_pos := ch1_pos
    ch2_pos := ch2_pos
    mode := mode
    format := format
    bclk_rate := bclk }

/-! ## Start/stop (`bcm2835_i2s_start_stop`, source lines 113-131) -/

/-- Modelled from the spec: §6 `start_stop(command: Start|Stop)`; the numeric
`BCM2835_I2S_START_CMD` constant lives in the missing driver header, so the
command is embedded as this two-valued type. -/
inductive StartStopCmd where
  | start
  | stop
  deriving Repr, DecidableEq

/-- The hardware action `bcm2835_i2s_start_stop` performs: either it runs the
FIFO-synchronization discard loop `bcm2835_i2s_synch_frame(audio_dev, mask)`,
or it directly sets, or clears, `mask` in the CS register. -/
inductive StartStopAction where
  | runSynchFrame (mask : Nat)
  | setBits (mask : Nat)
  | clearBits (mask : Nat)
  deriving Repr, DecidableEq

/-- `bcm2835_i2s_start_stop` (lines 113-131): with
`mask = BCM2835_I2S_RXON | BCM2835_I2S_TXON`, a start command runs the
discard loop when `strcmp(audio_dev->audio_hat, "elk-pi") == 0` and
otherwise or-sets `mask`; a stop command clears `mask`. -/
def bcm2835_i2s_start_stop (audio_hat : String) (cmd : StartStopCmd) :
    StartStopAction :=
  let mask := BCM2835_I2S_RXON ||| BCM2835_I2S_TXON
  match cmd with
  | StartStopCmd.start =>
    if audio_hat = "elk-pi" then StartStopAction.runSynchFrame mask
    else StartStopAction.setBits mask
  | StartStopCmd.stop => StartStopAction.clearBits mask

/-! ## Helper lemmas -/

theorem testBit_m32 (reg i : Nat) (h : i < 32) :
    (reg % 4294967296).testBit i = reg.testBit i := by
  have h2 := Nat.testBit_mod_two_pow reg 32 i
  norm_num at h2
  simp [h2, h]

theorem testBit_updateBits_enable (rv active i : Nat) (hi : i = 1 ∨ i = 2) :
    Nat.testBit
      (updateBits rv (BCM2835_I2S_RXON ||| BCM2835_I2S_TXON) active) i =
      Nat.testBit active i := by
  rcases hi with rfl | rfl
  · simp [updateBits, Nat.testBit_lor, Nat.testBit_land,
      show (compl32 (BCM2835_I2S_RXON ||| BCM2835_I2S_TXON)).testBit 1 = false
        from by decide,
      show BCM2835_I2S_RXON.testBit 1 = true from by decide]
  · simp [updateBits, Nat.testBit_lor, Nat.testBit_land,
      show (compl32 (BCM2835_I2S_RXON ||| BCM2835_I2S_TXON)).testBit 2 = false
        from by decide,
      show BCM2835_I2S_TXON.testBit 2 = true from by decide]

theorem testBit_land_enable (a i : Nat) (hi : i = 1 ∨ i = 2) :
    (a &&& (BCM2835_I2S_RXON ||| BCM2835_I2S_TXON)).testBit i = a.testBit i := by
  rcases hi with rfl | rfl <;>
    simp [Nat.testBit_land, Nat.testBit_lor,
      show BCM2835_I2S_RXON.testBit 1 = true from by decide,
      show BCM2835_I2S_TXON.testBit 2 = true from by decide]

theorem testBit_readCS_enable (reg : Nat) (b : Bool) (i : Nat)
    (hi : i = 1 ∨ i = 2) : Nat.testBit (readCS reg b) i = Nat.testBit reg i := by
  rcases hi with rfl | rfl <;> cases b <;>
    simp [readCS, m32, Nat.testBit_lor, Nat.testBit_land,
      testBit_m32 _ 1 (by norm_num), testBit_m32 _ 2 (by norm_num),
      show (compl32 BCM2835_I2S_SYNC).testBit 1 = true from by decide,
      show (compl32 BCM2835_I2S_SYNC).testBit 2 = true from by decide,
      show BCM2835_I2S_SYNC.testBit 1 = false from by decide,
      show BCM2835_I2S_SYNC.testBit 2 = false from by decide]

/-! ## Claims -/

/-- C5: for every initial CS register word (hence every initial combination of
the TX-enable bit `BCM2835_I2S_TXON` and RX-enable bit `BCM2835_I2S_RXON`),
every choice of the `(tx, rx)` arguments, and every behaviour of the
hardware-owned SYNC flag (so in particular whether the internal poll exited
early or exhausted its budget), the TX-enable and RX-enable bits of the CS
register after `bcm2835_i2s_clear_fifos` returns equal their initial
values. -/
theorem clear_fifos_restores_enable_bits (reg0 : Nat) (tx rx : Bool)
    (so : Nat → Bool) :
    ((bcm2835_i2s_clear_fifos reg0 tx rx so).1).testBit 1 = reg0.testBit 1 ∧
    ((bcm2835_i2s_clear_fifos reg0 tx rx so).1).testBit 2 = reg0.testBit 2 := by
  refine ⟨?_, ?_⟩
  · simp only [bcm2835_i2s_clear_fifos]
    rw [testBit_updateBits_enable _ _ 1 (Or.inl rfl),
      testBit_land_enable _ 1 (Or.inl rfl),
      testBit_readCS_enable _ _ 1 (Or.inl rfl)]
  · simp only [bcm2835_i2s_clear_fifos]
    rw [testBit_updateBits_enable _ _ 2 (Or.inr rfl),
      testBit_land_enable _ 2 (Or.inr rfl),
      testBit_readCS_enable _ _ 2 (Or.inr rfl)]

theorem pollLoop_le (sv : Nat) (hw : Nat → Nat) :
    ∀ f c, pollLoop sv hw f c ≤ c + f := by
  intro f
  induction f with
  | zero => intro c; simp [pollLoop]
  | succ n ih =>
    intro c
    rw [pollLoop]
    split
    · omega
    · have := ih (c + 1)
      omega

theorem pollLoop_all_same (sv : Nat) (hw : Nat → Nat) :
    ∀ f c, (∀ i, c ≤ i → i < c + f → hw i &&& BCM2835_I2S_SYNC = sv) →
      pollLoop sv hw f c = c + f := by
  intro f
  induction f with
  | zero => intro c _; simp [pollLoop]
  | succ n ih =>
    intro c h
    rw [pollLoop]
    split
    · next hflip => exact absurd (h c (Nat.le_refl c) (by omega)) hflip
    · rw [ih (c + 1) (fun i h1 h2 => h i (by omega) (by omega))]
      omega

theorem pollLoop_first_flip (sv : Nat) (hw : Nat → Nat) :
    ∀ f c j, c ≤ j → j < c + f → hw j &&& BCM2835_I2S_SYNC ≠ sv →
      (∀ i, c ≤ i → i < j → hw i &&& BCM2835_I2S_SYNC = sv) →
      pollLoop sv hw f c = j + 1 := by
  intro f
  induction f with
  | zero => intro c j h1 h2; omega
  | succ n ih =>
    intro c j hcj hjf hflip hsame
    rw [pollLoop]
    rcases Nat.eq_or_lt_of_le hcj with rfl | hlt
    · simp [hflip]
    · rw [if_neg (by simpa using hsame c (Nat.le_refl c) hlt)]
      exact ih (c + 1) j hlt (by omega) hflip
        (fun i h1 h2 => hsame i (by omega) h2)

/-- C9: the sync-flag poll loop inside `bcm2835_i2s_clear_fifos` always
terminates and performs at most 1000 iterations; it exits as soon as the
SYNC field of a polled status word differs from the recorded initial value
`sv` (reporting `j + 1` reads when the first differing read is the `j`-th),
and when no polled word ever differs it exits by exhausting the
pre-decremented `timeout = 1000` budget. -/
theorem clear_fifos_poll_terminates (sv : Nat) (hw : Nat → Nat) :
    pollLoop sv hw 999 0 ≤ 1000 ∧
    (∀ j, j < 999 → hw j &&& BCM2835_I2S_SYNC ≠ sv →
      (∀ i, i < j → hw i &&& BCM2835_I2S_SYNC = sv) →
      pollLoop sv hw 999 0 = j + 1) ∧
    ((∀ i, i < 999 → hw i &&& BCM2835_I2S_SYNC = sv) →
      pollLoop sv hw 999 0 = 999) := by
  refine ⟨le_trans (pollLoop_le sv hw 999 0) (by omega), ?_, ?_⟩
  · intro j hj hflip hsame
    exact pollLoop_first_flip sv hw 999 0 j (Nat.zero_le j) (by omega) hflip
      (fun i _ h2 => hsame i h2)
  · intro h
    simpa using pollLoop_all_same sv hw 999 0 (fun i _ h2 => h i (by omega))

/-- Witness for C9 at a concrete oracle: the SYNC field recorded is `0` and
the hardware first shows a differing SYNC bit at the fourth poll read, so
the loop stops after 4 reads. -/
theorem clear_fifos_poll_terminates_witness :
    pollLoop 0 (fun i => if i = 3 then BCM2835_I2S_SYNC else 0) 999 0 = 4 :=
  (clear_fifos_poll_terminates 0
      (fun i => if i = 3 then BCM2835_I2S_SYNC else 0)).2.1 3
    (by decide) (by decide) (by decide)

theorem synchLoop_run (s : Nat → Int) (N : Nat) (h0 : s N = 0)
    (h1 : s (N + 1) = 0)
    (hfirst : ∀ j, 1 ≤ j → j + 1 ≤ N → ¬(s j = 0 ∧ s (j + 1) = 0)) :
    ∀ fuel d w, 2 ≤ d → d ≤ N + 1 →
      synchLoop s fuel (s d) (s (d - 1)) d w =
        if N + 1 - d ≤ fuel then
          some (N + 1,
            w ++ (List.range' d (N + 1 - d)).map fun k => (k, s (k + 1)))
        else none := by
  intro fuel
  induction fuel with
  | zero =>
    intro d w hd2 hdN1
    rcases Nat.eq_or_lt_of_le hdN1 with heq | hlt
    · subst heq
      simp only [synchLoop]
      rw [show N + 1 - 1 = N from by omega, if_pos ⟨h1, h0⟩,
        if_pos (by omega)]
      simp
    · have hcond : ¬(s d = 0 ∧ s (d - 1) = 0) := by
        have h := hfirst (d - 1) (by omega) (by omega)
        rw [show d - 1 + 1 = d from by omega] at h
        tauto
      simp only [synchLoop]
      rw [if_neg hcond, if_neg (by omega)]
  | succ n ih =>
    intro d w hd2 hdN1
    rcases Nat.eq_or_lt_of_le hdN1 with heq | hlt
    · subst heq
      simp only [synchLoop]
      rw [show N + 1 - 1 = N from by omega, if_pos ⟨h1, h0⟩,
        if_pos (by omega)]
      simp
    · have hcond : ¬(s d = 0 ∧ s (d - 1) = 0) := by
        have h := hfirst (d - 1) (by omega) (by omega)
        rw [show d - 1 + 1 = d from by omega] at h
        tauto
      simp only [synchLoop]
      rw [if_neg hcond]
      have hrec := ih (d + 1) (w ++ [(d, s (d + 1))]) (by omega) (by omega)
      rw [show d + 1 - 1 = d from by omega] at hrec
      rw [hrec]
      by_cases hf : N + 1 - (d + 1) ≤ n
      · rw [if_pos hf, if_pos (by omega)]
        rw [show N + 1 - d = (N - d) + 1 from by omega, List.range'_succ,
          show N - d = N + 1 - (d + 1) from by omega]
        simp
      · rw [if_neg hf, if_neg (by omega)]

/-- C7: for every popped-sample stream `s` (sample positions counted from 1,
as the spec's scenario B counts them) whose first pair of consecutive zero
samples sits at positions `N` and `N + 1`, the discard loop of
`bcm2835_i2s_synch_frame` terminates exactly when those two zeros have been
popped — with any iteration budget of at least `N + 1` pops it stops and
reports a discard count of exactly `N + 1` (recording the popped values at
`tmp` indices `0 .. N`), and with any smaller budget it is still running. -/
theorem synch_frame_discard_count (s : Nat → Int) (N : Nat) (hN : 1 ≤ N)
    (h0 : s N = 0) (h1 : s (N + 1) = 0)
    (hfirst : ∀ j, 1 ≤ j → j + 1 ≤ N → ¬(s j = 0 ∧ s (j + 1) = 0))
    (fuel : Nat) :
    (N + 1 ≤ fuel →
      bcm2835_i2s_synch_frame s fuel =
        some (N + 1, (List.range' 0 (N + 1)).map fun k => (k, s (k + 1)))) ∧
    (fuel < N + 1 → bcm2835_i2s_synch_frame s fuel = none) := by
  match fuel with
  | 0 =>
    refine ⟨fun h => by omega, fun _ => ?_⟩
    simp only [bcm2835_i2s_synch_frame, synchLoop]
    rw [if_neg (by norm_num)]
  | 1 =>
    refine ⟨fun h => by omega, fun _ => ?_⟩
    simp only [bcm2835_i2s_synch_frame, synchLoop]
    rw [if_neg (by norm_num), if_neg (fun h => by norm_num at h)]
  | n + 2 =>
    have hsteps : bcm2835_i2s_synch_frame s (n + 2) =
        synchLoop s n (s 2) (s 1) 2 [(0, s 1), (1, s 2)] := by
      simp only [bcm2835_i2s_synch_frame, synchLoop]
      rw [if_neg (by norm_num), if_neg (fun h => by norm_num at h)]
      norm_num
    have hrun := synchLoop_run s N h0 h1 hfirst n 2 [(0, s 1), (1, s 2)]
      (by omega) (by omega)
    rw [show (2 : Nat) - 1 = 1 from rfl] at hrun
    rw [hsteps, hrun]
    have hlist : (List.range' 0 (N + 1)).map (fun k => (k, s (k + 1))) =
        [(0, s 1), (1, s 2)] ++
          (List.range' 2 (N + 1 - 2)).map (fun k => (k, s (k + 1))) := by
      conv_lhs => rw [show N + 1 = (N - 1) + 1 + 1 from by omega]
      rw [List.range'_succ, List.range'_succ,
        show N + 1 - 2 = N - 1 from by omega]
      simp
    constructor
    · intro h
      rw [if_pos (by omega), hlist]
    · intro h
      rw [if_neg (by omega)]

/-- Witness for C7: a concrete stream whose samples at positions 1 and 2 are
`17` and whose samples from position 3 on are zero, so the first consecutive
zero pair is at positions {3, 4}; the loop stops after discarding exactly
4 samples. -/
theorem synch_frame_discard_count_witness :
    bcm2835_i2s_synch_frame (fun k => if k < 3 then (17 : Int) else 0) 4 =
      some (4, [(0, 17), (1, 17), (2, 0), (3, 0)]) := by
  have h := (synch_frame_discard_count (fun k => if k < 3 then (17 : Int) else 0)
    3 (by norm_num) (by norm_num) (by norm_num)
    (by
      intro j hj1 hj2
      have hj : j = 1 ∨ j = 2 := by omega
      rcases hj with rfl | rfl <;> norm_num) 4).1 (by norm_num)
  rw [h]
  decide

/-- C8 (failing input): with a popped-sample stream whose first consecutive
zero pair is at positions {10, 11}, `bcm2835_i2s_synch_frame` discards 11
samples, recording each at the `tmp` index equal to the number of samples
discarded so far — which includes writes at indices 9 and 10, outside the
bounds of the 9-element local array `int32_t tmp[9]`. -/
theorem synch_frame_tmp_write_out_of_bounds :
    bcm2835_i2s_synch_frame (fun k => if k < 10 then (1 : Int) else 0) 11 =
      some (11, [(0, 1), (1, 1), (2, 1), (3, 1), (4, 1), (5, 1), (6, 1),
        (7, 1), (8, 1), (9, 0), (10, 0)]) ∧
    List.filter (fun wr => decide (synchTmpLen ≤ wr.1))
      [((0 : Nat), (1 : Int)), (1, 1), (2, 1), (3, 1), (4, 1), (5, 1), (6, 1),
        (7, 1), (8, 1), (9, 0), (10, 0)] = [(9, 0), (10, 0)] := by
  constructor
  · decide
  · decide

/-- C1: in every execution of `bcm2835_i2s_submit_dma` that returns success,
the trace is exactly RX submit, TX submit, RX issue-pending, TX
issue-pending; in particular the RX descriptor is submitted strictly before
the TX descriptor and RX `issue_pending` is called strictly before TX
`issue_pending`, so no TX step precedes the corresponding RX step. -/
theorem submit_dma_rx_before_tx (rxSubmitErr txSubmitErr : Bool)
    (h : (bcm2835_i2s_submit_dma rxSubmitErr txSubmitErr).2 = 0) :
    (bcm2835_i2s_submit_dma rxSubmitErr txSubmitErr).1 =
      [DmaEv.submitRx, DmaEv.submitTx, DmaEv.issueRx, DmaEv.issueTx] ∧
    (bcm2835_i2s_submit_dma rxSubmitErr txSubmitErr).1.indexOf DmaEv.submitRx <
      (bcm2835_i2s_submit_dma rxSubmitErr txSubmitErr).1.indexOf
        DmaEv.submitTx ∧
    (bcm2835_i2s_submit_dma rxSubmitErr txSubmitErr).1.indexOf DmaEv.issueRx <
      (bcm2835_i2s_submit_dma rxSubmitErr txSubmitErr).1.indexOf
        DmaEv.issueTx := by
  cases rxSubmitErr <;> cases txSubmitErr <;> revert h <;> decide

/-- Witness for C1: the successful execution (no submit error reported for
either direction). -/
theorem submit_dma_rx_before_tx_witness :
    (bcm2835_i2s_submit_dma false false).1 =
      [DmaEv.submitRx, DmaEv.submitTx, DmaEv.issueRx, DmaEv.issueTx] ∧
    (bcm2835_i2s_submit_dma false false).1.indexOf DmaEv.submitRx <
      (bcm2835_i2s_submit_dma false false).1.indexOf DmaEv.submitTx ∧
    (bcm2835_i2s_submit_dma false false).1.indexOf DmaEv.issueRx <
      (bcm2835_i2s_submit_dma false false).1.indexOf DmaEv.issueTx :=
  submit_dma_rx_before_tx false false (by decide)

/-- C2 (failing input): when `dmaengine_terminate_async` for TX reports
`-EINVAL`, `bcm2835_i2s_exit` returns that error immediately and RX
termination is never attempted — the RX channel is left armed because of a
TX-side failure, contrary to the claim (and to spec §4.5/§9, which flag this
early return as a source defect). -/
theorem exit_skips_rx_termination_on_tx_failure :
    bcm2835_i2s_exit (-EINVAL_VAL) 0 = ([DmaEv.termTx], -EINVAL_VAL) ∧
    DmaEv.termRx ∉ (bcm2835_i2s_exit (-EINVAL_VAL) 0).1 := by
  decide

/-- C3 counterexample: `bcm2835_i2s_dma_prepare` prepares the TX (playback)
descriptor strictly before the RX (capture) one, and in its only unwind
execution — RX preparation failing after TX succeeded — the channel torn
down before the error return is TX, not RX; so the claim's scenario (a TX
failure after RX was already obtained) never occurs, and the side torn down
in the unwind path is not the RX side. -/
theorem dma_prepare_unwind_counterexample :
    bcm2835_i2s_dma_prepare true false =
      ([DmaEv.prepTx, DmaEv.prepRx, DmaEv.termTx], -EBUSY_VAL) ∧
    DmaEv.termRx ∉ (bcm2835_i2s_dma_prepare true false).1 ∧
    (bcm2835_i2s_dma_prepare true false).1.indexOf DmaEv.prepTx <
      (bcm2835_i2s_dma_prepare true false).1.indexOf DmaEv.prepRx := by
  decide

/-- C3 (amended): the TX descriptor is prepared first; in every execution of
`bcm2835_i2s_dma_prepare` in which the capture (RX) descriptor fails after
the playback (TX) descriptor was successfully obtained, the TX side is torn
down (`dmaengine_terminate_async` on the TX channel) immediately before the
error is returned, so the already-acquired opposite-direction resource is
unwound and no armed channel is leaked. -/
theorem dma_prepare_unwinds_tx (txOk rxOk : Bool) (htx : txOk = true)
    (hrx : rxOk = false) :
    (bcm2835_i2s_dma_prepare txOk rxOk).1 =
      [DmaEv.prepTx, DmaEv.prepRx, DmaEv.termTx] ∧
    (bcm2835_i2s_dma_prepare txOk rxOk).2 = -EBUSY_VAL ∧
    DmaEv.termTx ∈ (bcm2835_i2s_dma_prepare txOk rxOk).1 := by
  subst htx
  subst hrx
  decide

/-- Witness for the amended C3 at the concrete unwind execution. -/
theorem dma_prepare_unwinds_tx_witness :
    (bcm2835_i2s_dma_prepare true false).1 =
      [DmaEv.prepTx, DmaEv.prepRx, DmaEv.termTx] ∧
    (bcm2835_i2s_dma_prepare true false).2 = -EBUSY_VAL ∧
    DmaEv.termTx ∈ (bcm2835_i2s_dma_prepare true false).1 :=
  dma_prepare_unwinds_tx true false rfl rfl

/-- C4 counterexample: the profile for which the peripheral is bit-clock and
frame-sync master is "hifi-berry" (`bcm2835_i2s_configure` sets both master
flags only there), yet a start command for "hifi-berry" asserts the RX/TX
enable mask directly without the discard loop, while the discard loop runs
for "elk-pi", a profile for which the peripheral is not bit-clock master. -/
theorem start_discard_loop_profile_counterexample :
    (bcm2835_i2s_configure "hifi-berry").bit_clock_master = true ∧
    (bcm2835_i2s_configure "hifi-berry").frame_sync_master = true ∧
    bcm2835_i2s_start_stop "hifi-berry" StartStopCmd.start =
      StartStopAction.setBits (BCM2835_I2S_RXON ||| BCM2835_I2S_TXON) ∧
    (bcm2835_i2s_configure "elk-pi").bit_clock_master = false ∧
    bcm2835_i2s_start_stop "elk-pi" StartStopCmd.start =
      StartStopAction.runSynchFrame (BCM2835_I2S_RXON ||| BCM2835_I2S_TXON) := by
  refine ⟨by decide, by decide, ?_, by decide, ?_⟩ <;> decide

/-- C4 (amended): for every hardware profile name, the start command runs the
FIFO-synchronization discard loop if and only if the profile is "elk-pi" —
the profile for which the peripheral is neither bit-clock nor frame-sync
master (the hat's codec provides the clocks); for every other profile, start
asserts the RX/TX enable mask directly without entering the discard loop. -/
theorem start_discard_loop_iff_elk_pi (audio_hat : String) :
    (bcm2835_i2s_start_stop audio_hat StartStopCmd.start =
        StartStopAction.runSynchFrame (BCM2835_I2S_RXON ||| BCM2835_I2S_TXON) ↔
      audio_hat = "elk-pi") ∧
    (audio_hat ≠ "elk-pi" →
      bcm2835_i2s_start_stop audio_hat StartStopCmd.start =
        StartStopAction.setBits (BCM2835_I2S_RXON ||| BCM2835_I2S_TXON)) ∧
    (bcm2835_i2s_configure "elk-pi").bit_clock_master = false ∧
    (bcm2835_i2s_configure "elk-pi").frame_sync_master = false := by
  refine ⟨?_, ?_, by decide, by decide⟩ <;>
  · by_cases h : audio_hat = "elk-pi" <;> simp [bcm2835_i2s_start_stop, h]

/-- Witness for the amended C4 at a concrete non-"elk-pi" profile. -/
theorem start_discard_loop_iff_elk_pi_witness :
    bcm2835_i2s_start_stop "hifi-berry" StartStopCmd.start =
      StartStopAction.setBits (BCM2835_I2S_RXON ||| BCM2835_I2S_TXON) :=
  (start_discard_loop_iff_elk_pi "hifi-berry").2.1 (by decide)

/-- C6: for every `(period_frames, channel_count)` pair and capture base
addresses, after `bcm2835_i2s_buffers_setup` computes the buffer geometry the
period length is `period_frames × channel_count × 4` bytes, the total buffer
length is twice the period length, and the playback base address — both the
virtual `tx_buf` and the physical `tx_phys_addr` — equals the corresponding
capture base address plus the buffer length. -/
theorem buffers_geom_invariant (audio_buffer_size audio_channels : Nat)
    (rx_buf rx_phys_addr : Nat) :
    (bcm2835_i2s_buffers_geom audio_buffer_size audio_channels rx_buf
        rx_phys_addr).period_len = audio_buffer_size * audio_channels * 4 ∧
    (bcm2835_i2s_buffers_geom audio_buffer_size audio_channels rx_buf
        rx_phys_addr).buffer_len =
      2 * (bcm2835_i2s_buffers_geom audio_buffer_size audio_channels rx_buf
        rx_phys_addr).period_len ∧
    (bcm2835_i2s_buffers_geom audio_buffer_size audio_channels rx_buf
        rx_phys_addr).tx_buf =
      rx_buf + (bcm2835_i2s_buffers_geom audio_buffer_size audio_channels
        rx_buf rx_phys_addr).buffer_len ∧
    (bcm2835_i2s_buffers_geom audio_buffer_size audio_channels rx_buf
        rx_phys_addr).tx_phys_addr =
      rx_phys_addr + (bcm2835_i2s_buffers_geom audio_buffer_size
        audio_channels rx_buf rx_phys_addr).buffer_len :=
  ⟨rfl, rfl, rfl, rfl⟩

/-- C10: after every execution of the DMA completion callback the active
buffer index is `0` or `1`; a prior index of `0` maps to `1` and a prior
index of `1` maps to `0`, and even from an arbitrary value the single
assignment `buffer_idx = ~buffer_idx & 0x1` lands in `{0, 1}`. -/
theorem dma_callback_buffer_idx_flip (kinterrupts buffer_idx : Nat) :
    ((bcm2835_i2s_dma_callback kinterrupts buffer_idx).2 = 0 ∨
      (bcm2835_i2s_dma_callback kinterrupts buffer_idx).2 = 1) ∧
    (bcm2835_i2s_dma_callback kinterrupts 0).2 = 1 ∧
    (bcm2835_i2s_dma_callback kinterrupts 1).2 = 0 := by
  refine ⟨?_, by simp only [bcm2835_i2s_dma_callback]; decide,
    by simp only [bcm2835_i2s_dma_callback]; decide⟩
  have hle : compl32 buffer_idx &&& 1 ≤ 1 := Nat.and_le_right
  simp only [bcm2835_i2s_dma_callback]
  omega
